import Mathlib

/-!
Shallow embedding of the MicroRNG SPI protocol engine (`MicroRngSPI.cpp`,
version 1.1).  The session object `MicroRngSPI` becomes an explicit state
record `SpiState`; the SPI bus (the `ioctl(fd, SPI_IOC_MESSAGE(1), &tr)`
calls) becomes an oracle `Bus` mapping the transfer's `speed_hz` parameter
and the index of the transfer attempt to its outcome; byte buffers
(`uint8_t *`) become functions `Nat → Nat` whose cells always hold values
below 256.  Machine bytes are `Nat` with explicit `% 256`; the C `int`
length parameters are `Int`.
-/

namespace MicroRng

/-- Outcome of one full-duplex single-byte SPI transfer attempt:
whether the `ioctl` reported success (at least one byte exchanged) and the
byte clocked in from the device. -/
structure Transfer where
  ok : Bool
  rx : Nat

/-- The bus environment: outcome of a transfer attempt as a function of the
`speed_hz` value passed with the transfer and of how many transfer attempts
the session has already issued. -/
abbrev Bus : Type := Nat → Nat → Transfer

/-- The `MicroRngSPI` object state.  `xfers` is not a C++ member: it counts
the `ioctl(SPI_IOC_MESSAGE(1))` calls issued so far, so that "number of bus
transfers" is observable in the model.  The command-byte members set in
`initialize` are fixed constants and are modelled as plain definitions
below. -/
@[ext]
structure SpiState where
  deviceConnected : Bool
  lastSentCommand : Nat
  clockHz : Nat
  minClockHz : Nat
  maxClockHz : Nat
  xfers : Nat
  lastError : String

/-- `testCommand = 't'` -/
def testCommand : Nat := 116

/-- `randomByteCommand = 'l'` -/
def randomByteCommand : Nat := 108

/-- `statusByteCommand = 's'` -/
def statusByteCommand : Nat := 115

/-- `rawRandomByteCommand = 'r'` -/
def rawRandomByteCommand : Nat := 114

/-- `shutDownCommand = 'D'` -/
def shutDownCommand : Nat := 68

/-- `startUpCommand = 'U'` -/
def startUpCommand : Nat := 85

/-- `resetUartSpeedCommand = 'R'` -/
def resetUartSpeedCommand : Nat := 82

/-- `MicroRngSPI::initialize()`: the member values after construction
(`lastSentCommand = '\0'`, `minClockHz = 250000`, `clockHz = minClockHz`,
`maxClockHz = 60000000`, error message "Not Connected", disconnected). -/
def initializeState : SpiState :=
  { deviceConnected := false
    lastSentCommand := 0
    clockHz := 250000
    minClockHz := 250000
    maxClockHz := 60000000
    xfers := 0
    lastError := "Not Connected" }

/-- `MicroRngSPI::isConnected()` -/
def isConnected (s : SpiState) : Bool :=
  s.deviceConnected

/-- `MicroRngSPI::setErrMsg(errMessage)` -/
def setErrMsg (s : SpiState) (errMessage : String) : SpiState :=
  { s with lastError := errMessage }

/-- `MicroRngSPI::setMaxClockFrequency(clockHz)`: unconditional member
assignment, no connection check, no return value. -/
def setMaxClockFrequency (s : SpiState) (clockHz : Nat) : SpiState :=
  { s with clockHz := clockHz }

/-- `MicroRngSPI::getMaxClockFrequency()` -/
def getMaxClockFrequency (s : SpiState) : Nat :=
  s.clockHz

/-- `MicroRngSPI::exhangeByte(cmd, rx)` (the source spells it without the
`c`).  Returns `(ok, new value of the rx cell, new state)` given the prior
value of the rx cell.  The source sets `*rx = 0` first, records
`lastSentCommand = cmd`, then issues one transfer with
`tr.speed_hz = clockHz`; on ioctl failure it sets the error message and
returns false with the rx cell still 0. -/
def exhangeByte (bus : Bus) (s : SpiState) (cmd : Nat) (rxOld : Nat) :
    Bool × Nat × SpiState :=
  if s.deviceConnected = false then
    (false, rxOld, s)
  else
    let s1 : SpiState := { s with lastSentCommand := cmd }
    let t : Transfer := bus s1.clockHz s1.xfers
    let s2 : SpiState := { s1 with xfers := s1.xfers + 1 }
    if t.ok then
      (true, t.rx % 256, s2)
    else
      (false, 0, setErrMsg s2 "Could not exchange SPI bytes")

/-- `MicroRngSPI::executeCommand(cmd, rx)`: one extra priming transfer when
`cmd` differs from `lastSentCommand`, then the real transfer. -/
def executeCommand (bus : Bus) (s : SpiState) (cmd : Nat) (rxOld : Nat) :
    Bool × Nat × SpiState :=
  if s.deviceConnected = false then
    (false, rxOld, s)
  else if cmd ≠ s.lastSentCommand then
    let r := exhangeByte bus s cmd rxOld
    if r.1 = false then r
    else exhangeByte bus r.2.2 cmd r.2.1
  else
    exhangeByte bus s cmd rxOld

/-- `MicroRngSPI::retrieveRandomByte(rx)` -/
def retrieveRandomByte (bus : Bus) (s : SpiState) (rxOld : Nat) :
    Bool × Nat × SpiState :=
  if s.deviceConnected = false then (false, rxOld, s)
  else executeCommand bus s randomByteCommand rxOld

/-- `MicroRngSPI::retrieveRawRandomByte(rx)` -/
def retrieveRawRandomByte (bus : Bus) (s : SpiState) (rxOld : Nat) :
    Bool × Nat × SpiState :=
  if s.deviceConnected = false then (false, rxOld, s)
  else executeCommand bus s rawRandomByteCommand rxOld

/-- `MicroRngSPI::retrieveTestByte(rx)` -/
def retrieveTestByte (bus : Bus) (s : SpiState) (rxOld : Nat) :
    Bool × Nat × SpiState :=
  if s.deviceConnected = false then (false, rxOld, s)
  else executeCommand bus s testCommand rxOld

/-- `MicroRngSPI::retrieveDeviceStatusByte(rx)` -/
def retrieveDeviceStatusByte (bus : Bus) (s : SpiState) (rxOld : Nat) :
    Bool × Nat × SpiState :=
  if s.deviceConnected = false then (false, rxOld, s)
  else executeCommand bus s statusByteCommand rxOld

/-- `MicroRngSPI::shutDownNoiseSources(rx)` -/
def shutDownNoiseSources (bus : Bus) (s : SpiState) (rxOld : Nat) :
    Bool × Nat × SpiState :=
  if s.deviceConnected = false then (false, rxOld, s)
  else executeCommand bus s shutDownCommand rxOld

/-- `MicroRngSPI::startUpNoiseSources(rx)` -/
def startUpNoiseSources (bus : Bus) (s : SpiState) (rxOld : Nat) :
    Bool × Nat × SpiState :=
  if s.deviceConnected = false then (false, rxOld, s)
  else executeCommand bus s startUpCommand rxOld

/-- `MicroRngSPI::resetUART(rx)` -/
def resetUART (bus : Bus) (s : SpiState) (rxOld : Nat) :
    Bool × Nat × SpiState :=
  if s.deviceConnected = false then (false, rxOld, s)
  else executeCommand bus s resetUartSpeedCommand rxOld

/-- The `for (int i = 0; i < len; i++)` loop of
`MicroRngSPI::retrieveRandomBytes`: retrieve one byte into cell `i`,
break on the first failing retrieval.  The loop's local `bool status`
shadows the function's outer `status` variable, so the loop result does not
reach the caller; the loop only determines the buffer and session state.
`fuel` is the number of iterations left (`len - i`). -/
def retrieveRandomBytesLoop (bus : Bus) (buf : Nat → Nat) (s : SpiState)
    (i : Nat) : Nat → (Nat → Nat) × SpiState
  | 0 => (buf, s)
  | fuel + 1 =>
    let r := retrieveRandomByte bus s (buf i)
    let buf1 : Nat → Nat := fun j => if j = i then r.2.1 else buf j
    if r.1 = false then (buf1, r.2.2)
    else retrieveRandomBytesLoop bus buf1 r.2.2 (i + 1) fuel

/-- `MicroRngSPI::retrieveRandomBytes(len, rx)`.  After the `len <= 0`
check the function runs the loop and then returns its OUTER `status`
variable, which the loop's shadowed inner `status` never updates — hence
the literal `true` on the loop path, faithful to the source. -/
def retrieveRandomBytes (bus : Bus) (s : SpiState) (len : Int)
    (buf : Nat → Nat) : Bool × (Nat → Nat) × SpiState :=
  if s.deviceConnected = false then
    (false, buf, s)
  else if len ≤ 0 then
    (false, buf, setErrMsg s "Invalid ammount of random bytes requested")
  else
    let r := retrieveRandomBytesLoop bus buf s 0 len.toNat
    (true, r.1, r.2)

/-- Loop of `MicroRngSPI::retrieveTestBytes`, same shape (and same
shadowed `status`) as the random-byte loop. -/
def retrieveTestBytesLoop (bus : Bus) (buf : Nat → Nat) (s : SpiState)
    (i : Nat) : Nat → (Nat → Nat) × SpiState
  | 0 => (buf, s)
  | fuel + 1 =>
    let r := retrieveTestByte bus s (buf i)
    let buf1 : Nat → Nat := fun j => if j = i then r.2.1 else buf j
    if r.1 = false then (buf1, r.2.2)
    else retrieveTestBytesLoop bus buf1 r.2.2 (i + 1) fuel

/-- `MicroRngSPI::retrieveTestBytes(len, rx)` (same shadowed-`status`
return as `retrieveRandomBytes`). -/
def retrieveTestBytes (bus : Bus) (s : SpiState) (len : Int)
    (buf : Nat → Nat) : Bool × (Nat → Nat) × SpiState :=
  if s.deviceConnected = false then
    (false, buf, s)
  else if len ≤ 0 then
    (false, buf, setErrMsg s "Invalid amount of test bytes requested")
  else
    let r := retrieveTestBytesLoop bus buf s 0 len.toNat
    (true, r.1, r.2)

/-- Loop of `MicroRngSPI::retrieveRawRandomBytes`, same shape (and same
shadowed `status`) as the random-byte loop. -/
def retrieveRawRandomBytesLoop (bus : Bus) (buf : Nat → Nat) (s : SpiState)
    (i : Nat) : Nat → (Nat → Nat) × SpiState
  | 0 => (buf, s)
  | fuel + 1 =>
    let r := retrieveRawRandomByte bus s (buf i)
    let buf1 : Nat → Nat := fun j => if j = i then r.2.1 else buf j
    if r.1 = false then (buf1, r.2.2)
    else retrieveRawRandomBytesLoop bus buf1 r.2.2 (i + 1) fuel

/-- `MicroRngSPI::retrieveRawRandomBytes(len, rx)` (same shadowed-`status`
return as `retrieveRandomBytes`). -/
def retrieveRawRandomBytes (bus : Bus) (s : SpiState) (len : Int)
    (buf : Nat → Nat) : Bool × (Nat → Nat) × SpiState :=
  if s.deviceConnected = false then
    (false, buf, s)
  else if len ≤ 0 then
    (false, buf, setErrMsg s "Invalid amount of raw random bytes requested")
  else
    let r := retrieveRawRandomBytesLoop bus buf s 0 len.toNat
    (true, r.1, r.2)

/-- The `i = 2 .. 16` part of the `MicroRngSPI::validateDevice` loop:
`beginID` is the running expected value (`beginTransactionID`); each
iteration executes the test command, pre-increments the expected value mod
256 and compares it to the received transaction id. -/
def validateDeviceLoop (bus : Bus) (s : SpiState) (beginID : Nat) :
    Nat → Bool × SpiState
  | 0 => (true, s)
  | fuel + 1 =>
    let r := executeCommand bus s testCommand 0
    if r.1 = false then (false, r.2.2)
    else
      let b1 := (beginID + 1) % 256
      if r.2.1 ≠ b1 then (false, setErrMsg r.2.2 "MicroRNG device not found")
      else validateDeviceLoop bus r.2.2 b1 fuel

/-- `MicroRngSPI::validateDevice()`: 16 executions of the test command;
iteration `i = 1` of the source loop only seeds `beginTransactionID` and is
unrolled here, the remaining 15 iterations check the sequence. -/
def validateDevice (bus : Bus) (s : SpiState) : Bool × SpiState :=
  if s.deviceConnected = false then (false, s)
  else
    let r := executeCommand bus s testCommand 0
    if r.1 = false then (false, r.2.2)
    else validateDeviceLoop bus r.2.2 r.2.1 15

/-- The checking loop of `MicroRngSPI::validateCommunication` from index
`i ≥ 1` on (`i = 0` of the source loop only seeds `expectedTestByte` and is
unrolled in `validateCommunication`): pre-increment the expected byte mod
256 and compare with the buffer cell.  `fuel` is `2048 - i`. -/
def validateCommunicationCheck (buf : Nat → Nat) (expected i : Nat) :
    Nat → Bool
  | 0 => true
  | fuel + 1 =>
    let e1 := (expected + 1) % 256
    if e1 = buf i then validateCommunicationCheck buf e1 (i + 1) fuel
    else false

/-- `MicroRngSPI::validateCommunication()`: fetch 2048 test bytes into a
fresh stack buffer (its prior, indeterminate contents are the `garbage`
parameter, reduced mod 256 because the array cells are `uint8_t`), then
check that they form one contiguous mod-256 incrementing run seeded by the
first byte. -/
def validateCommunication (bus : Bus) (garbage : Nat → Nat) (s : SpiState) :
    Bool × SpiState :=
  if s.deviceConnected = false then (false, s)
  else
    let buf0 : Nat → Nat := fun j => garbage j % 256
    let r := retrieveTestBytes bus s 2048 buf0
    if r.1 = false then (false, r.2.2)
    else
      let buf := r.2.1
      if validateCommunicationCheck buf (buf 0) 1 2047 then (true, r.2.2)
      else (false, setErrMsg r.2.2 "Could not validate SPI communication")

/-- The `for (freqHz = minClockHz; freqHz < maxClockHz; freqHz += minClockHz)`
loop of `MicroRngSPI::autodetectMaxFrequency`: save the current frequency,
set the candidate, validate; on success mark `success` and continue, on
failure restore the saved frequency and break.  `fuel` bounds the number of
iterations (the source loop, with `minClockHz > 0`, runs at most
`maxClockHz / minClockHz` times). -/
def autodetectMaxFrequencyLoop (bus : Bus) (garbage : Nat → Nat)
    (freqHz : Nat) (s : SpiState) (success : Bool) : Nat → Bool × SpiState
  | 0 => (success, s)
  | fuel + 1 =>
    if freqHz < s.maxClockHz then
      let prevClockHz := getMaxClockFrequency s
      let s1 := setMaxClockFrequency s freqHz
      let r := validateCommunication bus garbage s1
      if r.1 then
        autodetectMaxFrequencyLoop bus garbage (freqHz + r.2.minClockHz)
          r.2 true fuel
      else (success, setMaxClockFrequency r.2 prevClockHz)
    else (success, s)

/-- `MicroRngSPI::autodetectMaxFrequency()` -/
def autodetectMaxFrequency (bus : Bus) (garbage : Nat → Nat)
    (s : SpiState) : Bool × SpiState :=
  if s.deviceConnected = false then (false, s)
  else
    autodetectMaxFrequencyLoop bus garbage s.minClockHz s false
      (s.maxClockHz / s.minClockHz + 1)

/-- A bus on which every transfer succeeds, answering with the transfer
index mod 256 (the behaviour of a healthy device answering the test
command: consecutive transfer ids). -/
def busAllOkInc : Bus := fun _ n => { ok := true, rx := n % 256 }

/-- A bus on which every transfer attempt fails. -/
def busAllFail : Bus := fun _ _ => { ok := false, rx := 0 }

/-- A bus whose first transfer succeeds (response byte 7) and whose later
transfers all fail. -/
def busOkThenFail : Bus :=
  fun _ n => if n = 0 then { ok := true, rx := 7 } else { ok := false, rx := 0 }

/-- A bus whose first three transfers succeed (response bytes 40, 41, 42)
and whose later transfers all fail. -/
def busOk3ThenFail : Bus :=
  fun _ n =>
    if n < 3 then { ok := true, rx := 40 + n } else { ok := false, rx := 0 }

/-- A bus that behaves like a healthy device at clock speeds up to
1250000 Hz and answers constant bytes (breaking the incrementing test
pattern) at higher speeds. -/
def busSpeedGate : Bus :=
  fun speed n =>
    if speed ≤ 1250000 then { ok := true, rx := n % 256 }
    else { ok := true, rx := 0 }

/-- A freshly connected session: the state right after construction and a
successful `connect` (which flips `deviceConnected` and clears the error
message but leaves the other members at their `initialize` values). -/
def freshConnected : SpiState :=
  { initializeState with deviceConnected := true, lastError := "" }

/-- A connected session whose clock frequency member holds 1000000 Hz. -/
def s1MHz : SpiState := { freshConnected with clockHz := 1000000 }

/-- A connected session already primed with the random-byte command. -/
def primedRandom : SpiState :=
  { freshConnected with lastSentCommand := randomByteCommand }

/-- All-zero prior contents for a freshly allocated buffer. -/
def zeroGarbage : Nat → Nat := fun _ => 0

/-- A buffer whose every cell holds 99. -/
def buf99 : Nat → Nat := fun _ => 99

/-- Number of priming transfers the first test command of a run issues on
session `s`: 0 when the session is already primed with the test command,
1 otherwise. -/
def commOff (s : SpiState) : Nat :=
  if s.lastSentCommand = testCommand then 0 else 1

/-- Number of priming transfers the first random-byte command of a run
issues on session `s`: 0 when the session is already primed with the
random-byte command, 1 otherwise. -/
def randOff (s : SpiState) : Nat :=
  if s.lastSentCommand = randomByteCommand then 0 else 1

/-- The configuration fields no protocol operation but the clock setter
touches: connection flag, clock frequency and the two sweep bounds. -/
def preservesConfig (s s' : SpiState) : Prop :=
  s'.deviceConnected = s.deviceConnected ∧ s'.clockHz = s.clockHz ∧
  s'.minClockHz = s.minClockHz ∧ s'.maxClockHz = s.maxClockHz

/-! ### Basic facts about single exchanges -/

theorem exhangeByte_state (bus : Bus) (s : SpiState) (cmd rxOld : Nat)
    (hc : s.deviceConnected = true) :
    (exhangeByte bus s cmd rxOld).2.2 =
      { s with lastSentCommand := cmd, xfers := s.xfers + 1,
               lastError := if (bus s.clockHz s.xfers).ok then s.lastError
                            else "Could not exchange SPI bytes" } := by
  simp only [exhangeByte, hc, Bool.true_eq_false, if_false, setErrMsg]
  split <;> simp_all

theorem exhangeByte_fst (bus : Bus) (s : SpiState) (cmd rxOld : Nat)
    (hc : s.deviceConnected = true) :
    (exhangeByte bus s cmd rxOld).1 = (bus s.clockHz s.xfers).ok := by
  simp only [exhangeByte, hc, Bool.true_eq_false, if_false]
  split <;> simp_all

theorem exhangeByte_rx (bus : Bus) (s : SpiState) (cmd rxOld : Nat)
    (hc : s.deviceConnected = true) :
    (exhangeByte bus s cmd rxOld).2.1 =
      if (bus s.clockHz s.xfers).ok then (bus s.clockHz s.xfers).rx % 256
      else 0 := by
  simp only [exhangeByte, hc, Bool.true_eq_false, if_false]
  split <;> simp_all

theorem exhangeByte_ok (bus : Bus) (s : SpiState) (cmd rxOld : Nat)
    (hc : s.deviceConnected = true)
    (hok : (bus s.clockHz s.xfers).ok = true) :
    exhangeByte bus s cmd rxOld =
      (true, (bus s.clockHz s.xfers).rx % 256,
       { s with lastSentCommand := cmd, xfers := s.xfers + 1 }) := by
  simp [exhangeByte, hc, hok]

/-! ### Basic facts about `executeCommand` -/

theorem executeCommand_primed (bus : Bus) (s : SpiState) (cmd rxOld : Nat)
    (hc : s.deviceConnected = true) (hp : s.lastSentCommand = cmd) :
    executeCommand bus s cmd rxOld = exhangeByte bus s cmd rxOld := by
  simp [executeCommand, hc, hp]

theorem executeCommand_primed_ok (bus : Bus) (s : SpiState) (cmd rxOld : Nat)
    (hc : s.deviceConnected = true) (hp : s.lastSentCommand = cmd)
    (hok : (bus s.clockHz s.xfers).ok = true) :
    executeCommand bus s cmd rxOld =
      (true, (bus s.clockHz s.xfers).rx % 256,
       { s with lastSentCommand := cmd, xfers := s.xfers + 1 }) := by
  rw [executeCommand_primed bus s cmd rxOld hc hp,
    exhangeByte_ok bus s cmd rxOld hc hok]

theorem executeCommand_unprimed_ok (bus : Bus) (s : SpiState)
    (cmd rxOld : Nat) (hc : s.deviceConnected = true)
    (hp : cmd ≠ s.lastSentCommand)
    (hok0 : (bus s.clockHz s.xfers).ok = true)
    (hok1 : (bus s.clockHz (s.xfers + 1)).ok = true) :
    executeCommand bus s cmd rxOld =
      (true, (bus s.clockHz (s.xfers + 1)).rx % 256,
       { s with lastSentCommand := cmd, xfers := s.xfers + 1 + 1 }) := by
  obtain ⟨dc, lsc, ck, mn, mx, xf, le⟩ := s
  cases hc
  simp only at hp hok0 hok1
  simp [executeCommand, exhangeByte, hp, hok0, hok1]

/-- After `executeCommand` on a connected session, the session is still
connected, `cmd` is recorded as the last-sent command (whether or not any
transfer failed), the clock members are untouched and either one or two
transfers were attempted. -/
theorem executeCommand_connected_state (bus : Bus) (s : SpiState)
    (cmd rxOld : Nat) (hc : s.deviceConnected = true) :
    (executeCommand bus s cmd rxOld).2.2.deviceConnected = true ∧
    (executeCommand bus s cmd rxOld).2.2.lastSentCommand = cmd ∧
    (executeCommand bus s cmd rxOld).2.2.clockHz = s.clockHz ∧
    (executeCommand bus s cmd rxOld).2.2.minClockHz = s.minClockHz ∧
    (executeCommand bus s cmd rxOld).2.2.maxClockHz = s.maxClockHz ∧
    ((executeCommand bus s cmd rxOld).2.2.xfers = s.xfers + 1 ∨
      (executeCommand bus s cmd rxOld).2.2.xfers = s.xfers + 2) := by
  obtain ⟨dc, lsc, ck, mn, mx, xf, le⟩ := s
  cases hc
  by_cases hp : cmd = lsc
  · subst hp
    by_cases h1 : (bus ck xf).ok <;>
      simp [executeCommand, exhangeByte, setErrMsg, h1]
  · by_cases h1 : (bus ck xf).ok
    · by_cases h2 : (bus ck (xf + 1)).ok <;>
        simp [executeCommand, exhangeByte, setErrMsg, hp, h1, h2]
    · simp [executeCommand, exhangeByte, setErrMsg, hp, h1]

/-! ### Preservation of the configuration fields -/

theorem preservesConfig_refl (s : SpiState) : preservesConfig s s :=
  ⟨rfl, rfl, rfl, rfl⟩

theorem preservesConfig_trans {a b c : SpiState}
    (h1 : preservesConfig a b) (h2 : preservesConfig b c) :
    preservesConfig a c :=
  ⟨h2.1.trans h1.1, h2.2.1.trans h1.2.1, h2.2.2.1.trans h1.2.2.1,
   h2.2.2.2.trans h1.2.2.2⟩

theorem setErrMsg_preservesConfig (s : SpiState) (m : String) :
    preservesConfig s (setErrMsg s m) :=
  ⟨rfl, rfl, rfl, rfl⟩

theorem exhangeByte_preservesConfig (bus : Bus) (s : SpiState)
    (cmd rxOld : Nat) :
    preservesConfig s (exhangeByte bus s cmd rxOld).2.2 := by
  obtain ⟨dc, lsc, ck, mn, mx, xf, le⟩ := s
  cases dc <;>
    by_cases h1 : (bus ck xf).ok <;>
      simp [preservesConfig, exhangeByte, setErrMsg, h1]

theorem executeCommand_preservesConfig (bus : Bus) (s : SpiState)
    (cmd rxOld : Nat) :
    preservesConfig s (executeCommand bus s cmd rxOld).2.2 := by
  simp only [executeCommand]
  split
  · exact preservesConfig_refl s
  · split
    · split
      · exact exhangeByte_preservesConfig bus s cmd rxOld
      · exact preservesConfig_trans
          (exhangeByte_preservesConfig bus s cmd rxOld)
          (exhangeByte_preservesConfig bus _ cmd _)
    · exact exhangeByte_preservesConfig bus s cmd rxOld

theorem retrieveTestByte_preservesConfig (bus : Bus) (s : SpiState)
    (rxOld : Nat) :
    preservesConfig s (retrieveTestByte bus s rxOld).2.2 := by
  simp only [retrieveTestByte]
  split
  · exact preservesConfig_refl s
  · exact executeCommand_preservesConfig bus s testCommand rxOld

theorem retrieveTestBytesLoop_preservesConfig (bus : Bus) :
    ∀ (fuel : Nat) (buf : Nat → Nat) (s : SpiState) (i : Nat),
      preservesConfig s (retrieveTestBytesLoop bus buf s i fuel).2 := by
  intro fuel
  induction fuel with
  | zero => intro buf s i; exact preservesConfig_refl s
  | succ fuel ih =>
    intro buf s i
    simp only [retrieveTestBytesLoop]
    split
    · exact retrieveTestByte_preservesConfig bus s (buf i)
    · exact preservesConfig_trans
        (retrieveTestByte_preservesConfig bus s (buf i)) (ih _ _ _)

theorem retrieveTestBytes_preservesConfig (bus : Bus) (s : SpiState)
    (len : Int) (buf : Nat → Nat) :
    preservesConfig s (retrieveTestBytes bus s len buf).2.2 := by
  simp only [retrieveTestBytes]
  split
  · exact preservesConfig_refl s
  · split
    · exact setErrMsg_preservesConfig s _
    · exact retrieveTestBytesLoop_preservesConfig bus _ _ s 0

theorem validateCommunication_preservesConfig (bus : Bus)
    (garbage : Nat → Nat) (s : SpiState) :
    preservesConfig s (validateCommunication bus garbage s).2 := by
  simp only [validateCommunication]
  split
  · exact preservesConfig_refl s
  · split
    · exact retrieveTestBytes_preservesConfig bus s 2048 _
    · split
      · exact retrieveTestBytes_preservesConfig bus s 2048 _
      · exact preservesConfig_trans
          (retrieveTestBytes_preservesConfig bus s 2048 _)
          (setErrMsg_preservesConfig _ _)

/-! ### The test-byte retrieval loop under an always-succeeding bus -/

/-- On a connected session already primed with the test command and a bus
whose transfers all succeed, the retrieval loop fills cells
`[i, i + fuel)` with the consecutive bus responses (mod 256), leaves every
other cell alone, and advances the transfer count by `fuel`. -/
theorem retrieveTestBytesLoop_ok (bus : Bus) :
    ∀ (fuel : Nat) (s : SpiState) (i : Nat) (buf : Nat → Nat),
      s.deviceConnected = true → s.lastSentCommand = testCommand →
      (∀ n, (bus s.clockHz n).ok = true) →
      (∀ j, (retrieveTestBytesLoop bus buf s i fuel).1 j =
        if i ≤ j ∧ j < i + fuel then
          (bus s.clockHz (s.xfers + (j - i))).rx % 256
        else buf j) ∧
      (retrieveTestBytesLoop bus buf s i fuel).2 =
        { s with lastSentCommand := testCommand,
                 xfers := s.xfers + fuel } := by
  intro fuel
  induction fuel with
  | zero =>
    intro s i buf hc hp hok
    refine ⟨fun j => ?_, ?_⟩
    · rw [if_neg (by omega)]
      rfl
    · simp only [retrieveTestBytesLoop]
      rw [← hp]
      rfl
  | succ fuel ih =>
    intro s i buf hc hp hok
    have hstep : retrieveTestByte bus s (buf i) =
        (true, (bus s.clockHz s.xfers).rx % 256,
         { s with lastSentCommand := testCommand,
                  xfers := s.xfers + 1 }) := by
      simp only [retrieveTestByte]
      rw [if_neg (by simp [hc])]
      exact executeCommand_primed_ok bus s testCommand (buf i) hc hp (hok _)
    obtain ⟨ihbuf, ihstate⟩ :=
      ih { s with lastSentCommand := testCommand, xfers := s.xfers + 1 }
        (i + 1)
        (fun j => if j = i then (bus s.clockHz s.xfers).rx % 256 else buf j)
        hc rfl hok
    have ihbuf1 : ∀ j, (retrieveTestBytesLoop bus
        (fun j => if j = i then (bus s.clockHz s.xfers).rx % 256 else buf j)
        { s with lastSentCommand := testCommand, xfers := s.xfers + 1 }
        (i + 1) fuel).1 j =
        if i + 1 ≤ j ∧ j < i + 1 + fuel then
          (bus s.clockHz (s.xfers + 1 + (j - (i + 1)))).rx % 256
        else if j = i then (bus s.clockHz s.xfers).rx % 256 else buf j :=
      ihbuf
    have ihstate1 : (retrieveTestBytesLoop bus
        (fun j => if j = i then (bus s.clockHz s.xfers).rx % 256 else buf j)
        { s with lastSentCommand := testCommand, xfers := s.xfers + 1 }
        (i + 1) fuel).2 =
        { s with lastSentCommand := testCommand,
                 xfers := s.xfers + 1 + fuel } :=
      ihstate
    refine ⟨fun j => ?_, ?_⟩
    · simp only [retrieveTestBytesLoop, hstep, Bool.true_eq_false,
        if_false]
      rw [ihbuf1 j]
      by_cases h1 : i + 1 ≤ j ∧ j < i + 1 + fuel
      · rw [if_pos h1,
          if_pos (show i ≤ j ∧ j < i + (fuel + 1) by omega)]
        have e : s.xfers + 1 + (j - (i + 1)) = s.xfers + (j - i) := by
          omega
        rw [e]
      · rw [if_neg h1]
        by_cases h2 : j = i
        · rw [if_pos h2,
            if_pos (show i ≤ j ∧ j < i + (fuel + 1) by omega)]
          have e : s.xfers + (j - i) = s.xfers := by omega
          rw [e]
        · rw [if_neg h2,
            if_neg (show ¬(i ≤ j ∧ j < i + (fuel + 1)) by omega)]
    · simp only [retrieveTestBytesLoop, hstep, Bool.true_eq_false,
        if_false]
      rw [ihstate1]
      have e : s.xfers + 1 + fuel = s.xfers + (fuel + 1) := by omega
      rw [e]

/-! ### The validation check loop -/

/-- The check loop of `validateCommunication` from position `i` with
running expected value `expected` accepts exactly the buffers whose cells
continue the incrementing run. -/
theorem validateCommunicationCheck_iff (buf : Nat → Nat) :
    ∀ (fuel i expected : Nat),
      (validateCommunicationCheck buf expected i fuel = true ↔
        ∀ j, i ≤ j → j < i + fuel →
          buf j = (expected + (j - i) + 1) % 256) := by
  intro fuel
  induction fuel with
  | zero =>
    intro i expected
    simp only [validateCommunicationCheck]
    constructor
    · intro _ j h1 h2
      omega
    · intro _
      trivial
  | succ fuel ih =>
    intro i expected
    simp only [validateCommunicationCheck]
    by_cases h : (expected + 1) % 256 = buf i
    · rw [if_pos h, ih (i + 1) ((expected + 1) % 256)]
      constructor
      · intro H j h1 h2
        by_cases hj : j = i
        · subst hj
          rw [← h]
          congr 1
          omega
        · rw [H j (by omega) (by omega)]
          have e1 : (expected + 1) % 256 + (j - (i + 1)) + 1 =
              (expected + 1) % 256 + (j - (i + 1) + 1) := by omega
          rw [e1, Nat.mod_add_mod]
          congr 1
          omega
      · intro H j h1 h2
        rw [H j (by omega) (by omega)]
        have e1 : (expected + 1) % 256 + (j - (i + 1)) + 1 =
            (expected + 1) % 256 + (j - (i + 1) + 1) := by omega
        rw [e1, Nat.mod_add_mod]
        congr 1
        omega
    · rw [if_neg h]
      constructor
      · intro hcon
        exact absurd hcon (by simp)
      · intro H
        exfalso
        apply h
        have hbi := H i (le_refl i) (by omega)
        rw [hbi]
        congr 1
        omega

/-- One unfolding step of the test-byte retrieval loop. -/
theorem retrieveTestBytesLoop_succ (bus : Bus) (buf : Nat → Nat)
    (s : SpiState) (i fuel : Nat) :
    retrieveTestBytesLoop bus buf s i (fuel + 1) =
      (let r := retrieveTestByte bus s (buf i)
       let buf1 : Nat → Nat := fun j => if j = i then r.2.1 else buf j
       if r.1 = false then (buf1, r.2.2)
       else retrieveTestBytesLoop bus buf1 r.2.2 (i + 1) fuel) := rfl

/-- On a connected session with an always-succeeding bus,
`retrieveTestBytes 2048` reports success and fills cells `[0, 2048)` with
the consecutive bus responses, starting after the one priming transfer the
first test command issues on an unprimed session (`commOff`). -/
theorem retrieveTestBytes2048_ok (bus : Bus) (garbage : Nat → Nat)
    (s : SpiState) (hc : s.deviceConnected = true)
    (hok : ∀ n, (bus s.clockHz n).ok = true) :
    (retrieveTestBytes bus s 2048 (fun j => garbage j % 256)).1 = true ∧
    (∀ j, j < 2048 →
      (retrieveTestBytes bus s 2048 (fun j => garbage j % 256)).2.1 j =
        (bus s.clockHz (s.xfers + commOff s + j)).rx % 256) := by
  have hret : retrieveTestBytes bus s 2048 (fun j => garbage j % 256) =
      (true,
       (retrieveTestBytesLoop bus (fun j => garbage j % 256) s 0 2048).1,
       (retrieveTestBytesLoop bus (fun j => garbage j % 256) s 0 2048).2) := by
    simp only [retrieveTestBytes]
    rw [if_neg (by simp [hc]), if_neg (by norm_num)]
    rfl
  rw [hret]
  by_cases hp : s.lastSentCommand = testCommand
  · have hoff : commOff s = 0 := by simp [commOff, hp]
    obtain ⟨hB, -⟩ :=
      retrieveTestBytesLoop_ok bus 2048 s 0 (fun j => garbage j % 256) hc
        hp hok
    refine ⟨rfl, fun j hj => ?_⟩
    show (retrieveTestBytesLoop bus (fun j => garbage j % 256) s 0
        2048).1 j = _
    rw [hB j, if_pos (show 0 ≤ j ∧ j < 0 + 2048 by omega)]
    have e : s.xfers + (j - 0) = s.xfers + commOff s + j := by omega
    rw [e]
  · have hne : testCommand ≠ s.lastSentCommand := fun hcon => hp hcon.symm
    have hoff : commOff s = 1 := by simp [commOff, hp]
    have hstep0 : retrieveTestByte bus s (garbage 0 % 256) =
        (true, (bus s.clockHz (s.xfers + 1)).rx % 256,
         { s with lastSentCommand := testCommand,
                  xfers := s.xfers + 1 + 1 }) := by
      simp only [retrieveTestByte]
      rw [if_neg (by simp [hc])]
      exact executeCommand_unprimed_ok bus s testCommand _ hc hne (hok _)
        (hok _)
    obtain ⟨hB, -⟩ :=
      retrieveTestBytesLoop_ok bus 2047
        { s with lastSentCommand := testCommand, xfers := s.xfers + 1 + 1 }
        1
        (fun j => if j = 0 then (bus s.clockHz (s.xfers + 1)).rx % 256
                  else garbage j % 256)
        hc rfl hok
    have hB1 : ∀ j, (retrieveTestBytesLoop bus
        (fun j => if j = 0 then (bus s.clockHz (s.xfers + 1)).rx % 256
                  else garbage j % 256)
        { s with lastSentCommand := testCommand, xfers := s.xfers + 1 + 1 }
        1 2047).1 j =
        if 1 ≤ j ∧ j < 1 + 2047 then
          (bus s.clockHz (s.xfers + 1 + 1 + (j - 1))).rx % 256
        else if j = 0 then (bus s.clockHz (s.xfers + 1)).rx % 256
             else garbage j % 256 := hB
    have hunroll : retrieveTestBytesLoop bus (fun j => garbage j % 256) s
        0 2048 =
        retrieveTestBytesLoop bus
          (fun j => if j = 0 then (bus s.clockHz (s.xfers + 1)).rx % 256
                    else garbage j % 256)
          { s with lastSentCommand := testCommand,
                   xfers := s.xfers + 1 + 1 }
          1 2047 := by
      rw [show (2048 : Nat) = 2047 + 1 from rfl,
        retrieveTestBytesLoop_succ]
      simp only [hstep0, Bool.true_eq_false, if_false]
    refine ⟨rfl, fun j hj => ?_⟩
    show (retrieveTestBytesLoop bus (fun j => garbage j % 256) s 0
        2048).1 j = _
    rw [hunroll, hB1 j]
    by_cases h1 : 1 ≤ j
    · rw [if_pos (show 1 ≤ j ∧ j < 1 + 2047 by omega)]
      have e : s.xfers + 1 + 1 + (j - 1) = s.xfers + commOff s + j := by
        omega
      rw [e]
    · have hj0 : j = 0 := by omega
      rw [if_neg (by omega), if_pos hj0]
      have e : s.xfers + 1 = s.xfers + commOff s + j := by omega
      rw [e]

/-- On a connected session with an always-succeeding bus,
`validateCommunication` succeeds exactly when the 2048 sampled response
bytes form one contiguous mod-256 incrementing run seeded by the first
sample, and on failure it records the communication error message. -/
theorem validateCommunication_ok_iff (bus : Bus) (garbage : Nat → Nat)
    (s : SpiState) (hc : s.deviceConnected = true)
    (hok : ∀ n, (bus s.clockHz n).ok = true) :
    ((validateCommunication bus garbage s).1 = true ↔
      (∀ i, 1 ≤ i → i < 2048 →
        (bus s.clockHz (s.xfers + commOff s + i)).rx % 256 =
          ((bus s.clockHz (s.xfers + commOff s)).rx % 256 + i) % 256)) ∧
    ((validateCommunication bus garbage s).1 = false →
      (validateCommunication bus garbage s).2.lastError =
        "Could not validate SPI communication") := by
  obtain ⟨hr1, hrB⟩ := retrieveTestBytes2048_ok bus garbage s hc hok
  have heq : validateCommunication bus garbage s =
      (if validateCommunicationCheck
          (retrieveTestBytes bus s 2048 (fun j => garbage j % 256)).2.1
          ((retrieveTestBytes bus s 2048 (fun j => garbage j % 256)).2.1 0)
          1 2047
       then (true,
             (retrieveTestBytes bus s 2048 (fun j => garbage j % 256)).2.2)
       else (false,
             setErrMsg
               (retrieveTestBytes bus s 2048
                 (fun j => garbage j % 256)).2.2
               "Could not validate SPI communication")) := by
    simp only [validateCommunication]
    rw [if_neg (by simp [hc]), hr1,
      if_neg (show ¬(true = false) by simp)]
  have hchkiff : (validateCommunicationCheck
      (retrieveTestBytes bus s 2048 (fun j => garbage j % 256)).2.1
      ((retrieveTestBytes bus s 2048 (fun j => garbage j % 256)).2.1 0)
      1 2047 = true) ↔
      (∀ i, 1 ≤ i → i < 2048 →
        (bus s.clockHz (s.xfers + commOff s + i)).rx % 256 =
          ((bus s.clockHz (s.xfers + commOff s)).rx % 256 + i) % 256) := by
    rw [validateCommunicationCheck_iff]
    have hs0 : (retrieveTestBytes bus s 2048
        (fun j => garbage j % 256)).2.1 0 =
        (bus s.clockHz (s.xfers + commOff s)).rx % 256 := by
      have h0 := hrB 0 (by omega)
      simpa using h0
    constructor
    · intro H i h1 h2
      have hHi := H i h1 (by omega)
      rw [hrB i (by omega), hs0] at hHi
      rw [hHi]
      congr 1
      omega
    · intro H j h1 h2
      have hHj := H j h1 (by omega)
      rw [hrB j (by omega), hs0, hHj]
      congr 1
      omega
  constructor
  · rw [heq]
    by_cases hchk : validateCommunicationCheck
        (retrieveTestBytes bus s 2048 (fun j => garbage j % 256)).2.1
        ((retrieveTestBytes bus s 2048 (fun j => garbage j % 256)).2.1 0)
        1 2047 = true
    · rw [if_pos hchk]
      exact iff_of_true rfl (hchkiff.mp hchk)
    · rw [if_neg hchk]
      exact iff_of_false (by simp) fun ht => hchk (hchkiff.mpr ht)
  · rw [heq]
    by_cases hchk : validateCommunicationCheck
        (retrieveTestBytes bus s 2048 (fun j => garbage j % 256)).2.1
        ((retrieveTestBytes bus s 2048 (fun j => garbage j % 256)).2.1 0)
        1 2047 = true
    · rw [if_pos hchk]
      intro hfalse
      exact absurd hfalse (by simp)
    · rw [if_neg hchk]
      intro _
      rfl

/-! ### The device-validation loop -/

/-- The success flag of `executeCommand` on a connected session: one
transfer must succeed when primed, both when unprimed. -/
theorem executeCommand_fst (bus : Bus) (s : SpiState) (cmd rxOld : Nat)
    (hc : s.deviceConnected = true) :
    (executeCommand bus s cmd rxOld).1 =
      (if cmd = s.lastSentCommand then (bus s.clockHz s.xfers).ok
       else ((bus s.clockHz s.xfers).ok &&
             (bus s.clockHz (s.xfers + 1)).ok)) := by
  obtain ⟨dc, lsc, ck, mn, mx, xf, le⟩ := s
  cases hc
  by_cases hp : cmd = lsc
  · by_cases h1 : (bus ck xf).ok <;>
      simp [executeCommand, exhangeByte, setErrMsg, hp, h1]
  · by_cases h1 : (bus ck xf).ok
    · by_cases h2 : (bus ck (xf + 1)).ok <;>
        simp [executeCommand, exhangeByte, setErrMsg, hp, h1, h2]
    · simp [executeCommand, exhangeByte, setErrMsg, hp, h1]

/-- The checking part of the `validateDevice` loop (iterations 2..16 of
the source loop), on a connected session primed with the test command:
it succeeds exactly when all its transfers succeed and each response
continues the mod-256 expected sequence chained from `b`. -/
theorem validateDeviceLoop_iff (bus : Bus) :
    ∀ (fuel : Nat) (s : SpiState) (b : Nat),
      s.deviceConnected = true → s.lastSentCommand = testCommand →
      ((validateDeviceLoop bus s b fuel).1 = true ↔
        ((∀ m, m < fuel → (bus s.clockHz (s.xfers + m)).ok = true) ∧
         (∀ m, m < fuel →
           (bus s.clockHz (s.xfers + m)).rx % 256 = (b + m + 1) % 256))) := by
  intro fuel
  induction fuel with
  | zero =>
    intro s b hc hp
    simp only [validateDeviceLoop]
    constructor
    · intro _
      exact ⟨fun m hm => absurd hm (by omega),
             fun m hm => absurd hm (by omega)⟩
    · intro _
      trivial
  | succ fuel ih =>
    intro s b hc hp
    by_cases h0 : (bus s.clockHz s.xfers).ok
    · have hexec : executeCommand bus s testCommand 0 =
          (true, (bus s.clockHz s.xfers).rx % 256,
           { s with lastSentCommand := testCommand,
                    xfers := s.xfers + 1 }) :=
        executeCommand_primed_ok bus s testCommand 0 hc hp h0
      simp only [validateDeviceLoop, hexec, Bool.true_eq_false, if_false]
      by_cases heq : (bus s.clockHz s.xfers).rx % 256 = (b + 1) % 256
      · rw [if_neg (fun hne => hne heq)]
        have ihres : (validateDeviceLoop bus
            { s with lastSentCommand := testCommand,
                     xfers := s.xfers + 1 } ((b + 1) % 256) fuel).1 =
            true ↔
            ((∀ m, m < fuel →
               (bus s.clockHz (s.xfers + 1 + m)).ok = true) ∧
             (∀ m, m < fuel →
               (bus s.clockHz (s.xfers + 1 + m)).rx % 256 =
                 ((b + 1) % 256 + m + 1) % 256)) :=
          ih { s with lastSentCommand := testCommand,
                      xfers := s.xfers + 1 } ((b + 1) % 256) hc rfl
        rw [ihres]
        constructor
        · rintro ⟨Hok, Hrx⟩
          refine ⟨fun m hm => ?_, fun m hm => ?_⟩
          · cases m with
            | zero => exact h0
            | succ m =>
              have hm1 := Hok m (by omega)
              rw [show s.xfers + 1 + m = s.xfers + (m + 1) from by omega]
                at hm1
              exact hm1
          · cases m with
            | zero => simpa using heq
            | succ m =>
              have hm1 := Hrx m (by omega)
              rw [show s.xfers + 1 + m = s.xfers + (m + 1) from by omega]
                at hm1
              rw [hm1,
                show (b + 1) % 256 + m + 1 = (b + 1) % 256 + (m + 1)
                  from by omega,
                Nat.mod_add_mod]
              congr 1
              omega
        · rintro ⟨Hok, Hrx⟩
          refine ⟨fun m hm => ?_, fun m hm => ?_⟩
          · have hm1 := Hok (m + 1) (by omega)
            rw [show s.xfers + (m + 1) = s.xfers + 1 + m from by omega]
              at hm1
            exact hm1
          · have hm1 := Hrx (m + 1) (by omega)
            rw [show s.xfers + (m + 1) = s.xfers + 1 + m from by omega]
              at hm1
            rw [hm1,
              show (b + 1) % 256 + m + 1 = (b + 1) % 256 + (m + 1)
                from by omega,
              Nat.mod_add_mod]
            congr 1
            omega
      · rw [if_pos heq]
        constructor
        · intro hfalse
          exact absurd hfalse (by simp)
        · rintro ⟨Hok, Hrx⟩
          exfalso
          apply heq
          have hm0 := Hrx 0 (by omega)
          simpa using hm0
    · have hfst : (executeCommand bus s testCommand 0).1 = false := by
        rw [executeCommand_fst bus s testCommand 0 hc, if_pos hp.symm]
        simpa using h0
      simp only [validateDeviceLoop]
      rw [if_pos hfst]
      constructor
      · intro hfalse
        exact absurd hfalse (by simp)
      · rintro ⟨Hok, Hrx⟩
        exfalso
        apply h0
        simpa using Hok 0 (by omega)

/-- A finite response sequence continues the expected sequence chained
from its own first element exactly when consecutive elements increment by
1 mod 256. -/
theorem chain_iff_consecutive (g : Nat → Nat) (N : Nat) :
    (∀ m, m < N → g (m + 1) = (g 0 + m + 1) % 256) ↔
    (∀ m, m < N → g (m + 1) = (g m + 1) % 256) := by
  constructor
  · intro H m hm
    cases m with
    | zero => simpa using H 0 hm
    | succ m =>
      rw [H (m + 1) hm, H m (by omega), Nat.mod_add_mod]
      omega
  · intro H
    intro m
    induction m with
    | zero =>
      intro hm
      simpa using H 0 hm
    | succ m ihm =>
      intro hm
      rw [H (m + 1) hm, ihm (by omega), Nat.mod_add_mod]
      omega

/-! ### The random-byte retrieval loop around its first failure -/

theorem executeCommand_primed_fail (bus : Bus) (s : SpiState)
    (cmd rxOld : Nat) (hc : s.deviceConnected = true)
    (hp : s.lastSentCommand = cmd)
    (hbad : (bus s.clockHz s.xfers).ok = false) :
    executeCommand bus s cmd rxOld =
      (false, 0,
       { s with lastSentCommand := cmd, xfers := s.xfers + 1,
                lastError := "Could not exchange SPI bytes" }) := by
  rw [executeCommand_primed bus s cmd rxOld hc hp]
  obtain ⟨dc, lsc, ck, mn, mx, xf, le⟩ := s
  cases hc
  simp only at hbad
  simp [exhangeByte, setErrMsg, hbad]

/-- `executeCommand` on an unprimed connected session whose priming
transfer fails: one transfer attempted, the receive cell zeroed, the
command still recorded. -/
theorem executeCommand_unprimed_fail0 (bus : Bus) (s : SpiState)
    (cmd rxOld : Nat) (hc : s.deviceConnected = true)
    (hp : cmd ≠ s.lastSentCommand)
    (hbad : (bus s.clockHz s.xfers).ok = false) :
    executeCommand bus s cmd rxOld =
      (false, 0,
       { s with lastSentCommand := cmd, xfers := s.xfers + 1,
                lastError := "Could not exchange SPI bytes" }) := by
  obtain ⟨dc, lsc, ck, mn, mx, xf, le⟩ := s
  cases hc
  simp only at hp hbad
  simp [executeCommand, exhangeByte, setErrMsg, hp, hbad]

/-- `executeCommand` on an unprimed connected session whose priming
transfer succeeds but whose second (read) transfer fails: two transfers
attempted, the receive cell zeroed, the command still recorded. -/
theorem executeCommand_unprimed_fail1 (bus : Bus) (s : SpiState)
    (cmd rxOld : Nat) (hc : s.deviceConnected = true)
    (hp : cmd ≠ s.lastSentCommand)
    (hok0 : (bus s.clockHz s.xfers).ok = true)
    (hbad1 : (bus s.clockHz (s.xfers + 1)).ok = false) :
    executeCommand bus s cmd rxOld =
      (false, 0,
       { s with lastSentCommand := cmd, xfers := s.xfers + 1 + 1,
                lastError := "Could not exchange SPI bytes" }) := by
  obtain ⟨dc, lsc, ck, mn, mx, xf, le⟩ := s
  cases hc
  simp only at hp hok0 hbad1
  simp [executeCommand, exhangeByte, setErrMsg, hp, hok0, hbad1]

/-- One unfolding step of the random-byte retrieval loop. -/
theorem retrieveRandomBytesLoop_succ (bus : Bus) (buf : Nat → Nat)
    (s : SpiState) (i fuel : Nat) :
    retrieveRandomBytesLoop bus buf s i (fuel + 1) =
      (let r := retrieveRandomByte bus s (buf i)
       let buf1 : Nat → Nat := fun j => if j = i then r.2.1 else buf j
       if r.1 = false then (buf1, r.2.2)
       else retrieveRandomBytesLoop bus buf1 r.2.2 (i + 1) fuel) := rfl

/-- Behaviour of the random-byte retrieval loop when the session is primed
with the random-byte command and the `d`-th transfer (0-based, counted
from the session's current transfer count) is the first to fail: cells
`[i, i + d)` receive the successful responses, cell `i + d` is zeroed by
the failed exchange (which clears the receive cell before the transfer),
and every other cell keeps its previous value. -/
theorem retrieveRandomBytesLoop_fail_at (bus : Bus) :
    ∀ (fuel : Nat) (s : SpiState) (i : Nat) (buf : Nat → Nat) (d : Nat),
      s.deviceConnected = true →
      s.lastSentCommand = randomByteCommand →
      d < fuel →
      (∀ m, m < d → (bus s.clockHz (s.xfers + m)).ok = true) →
      (bus s.clockHz (s.xfers + d)).ok = false →
      (∀ m, m < d →
        (retrieveRandomBytesLoop bus buf s i fuel).1 (i + m) =
          (bus s.clockHz (s.xfers + m)).rx % 256) ∧
      (retrieveRandomBytesLoop bus buf s i fuel).1 (i + d) = 0 ∧
      (∀ j, (∀ m, m ≤ d → j ≠ i + m) →
        (retrieveRandomBytesLoop bus buf s i fuel).1 j = buf j) := by
  intro fuel
  induction fuel with
  | zero =>
    intro s i buf d _ _ hd _ _
    omega
  | succ fuel ih =>
    intro s i buf d hc hp hd hok hbad
    cases d with
    | zero =>
      have hfail0 : retrieveRandomByte bus s (buf i) =
          (false, 0,
           { s with lastSentCommand := randomByteCommand,
                    xfers := s.xfers + 1,
                    lastError := "Could not exchange SPI bytes" }) := by
        simp only [retrieveRandomByte]
        rw [if_neg (by simp [hc])]
        exact executeCommand_primed_fail bus s randomByteCommand (buf i)
          hc hp (by simpa using hbad)
      simp only [retrieveRandomBytesLoop, hfail0, if_true]
      refine ⟨fun m hm => absurd hm (by omega), ?_, fun j hj => ?_⟩
      · simp
      · have hji : j ≠ i := by
          have := hj 0 (by omega)
          simpa using this
        simp [hji]
    | succ d =>
      have hok0 : (bus s.clockHz s.xfers).ok = true := by
        have := hok 0 (by omega)
        simpa using this
      have hstep : retrieveRandomByte bus s (buf i) =
          (true, (bus s.clockHz s.xfers).rx % 256,
           { s with lastSentCommand := randomByteCommand,
                    xfers := s.xfers + 1 }) := by
        simp only [retrieveRandomByte]
        rw [if_neg (by simp [hc])]
        exact executeCommand_primed_ok bus s randomByteCommand (buf i) hc
          hp hok0
      simp only [retrieveRandomBytesLoop, hstep, Bool.true_eq_false,
        if_false]
      obtain ⟨IH1, IH2, IH3⟩ := ih
        { s with lastSentCommand := randomByteCommand,
                 xfers := s.xfers + 1 }
        (i + 1)
        (fun j => if j = i then (bus s.clockHz s.xfers).rx % 256
                  else buf j)
        d hc rfl (by omega)
        (fun m hm => by
          have hv := hok (m + 1) (by omega)
          rw [show s.xfers + (m + 1) = s.xfers + 1 + m from by omega]
            at hv
          exact hv)
        (by
          have hv := hbad
          rw [show s.xfers + (d + 1) = s.xfers + 1 + d from by omega]
            at hv
          exact hv)
      have ih1 : ∀ m, m < d → (retrieveRandomBytesLoop bus
          (fun j => if j = i then (bus s.clockHz s.xfers).rx % 256
                    else buf j)
          { s with lastSentCommand := randomByteCommand,
                   xfers := s.xfers + 1 }
          (i + 1) fuel).1 ((i + 1) + m) =
          (bus s.clockHz (s.xfers + 1 + m)).rx % 256 := IH1
      have ih2 : (retrieveRandomBytesLoop bus
          (fun j => if j = i then (bus s.clockHz s.xfers).rx % 256
                    else buf j)
          { s with lastSentCommand := randomByteCommand,
                   xfers := s.xfers + 1 }
          (i + 1) fuel).1 ((i + 1) + d) = 0 := IH2
      have ih3 : ∀ j, (∀ m, m ≤ d → j ≠ (i + 1) + m) →
          (retrieveRandomBytesLoop bus
            (fun j => if j = i then (bus s.clockHz s.xfers).rx % 256
                      else buf j)
            { s with lastSentCommand := randomByteCommand,
                     xfers := s.xfers + 1 }
            (i + 1) fuel).1 j =
          (if j = i then (bus s.clockHz s.xfers).rx % 256 else buf j) :=
        IH3
      refine ⟨fun m hm => ?_, ?_, fun j hj => ?_⟩
      · cases m with
        | zero =>
          have hfr := ih3 (i + 0) (fun m hm => by omega)
          rw [hfr]
          simp
        | succ m =>
          have hm1 := ih1 m (by omega)
          rw [show (i + 1) + m = i + (m + 1) from by omega] at hm1
          rw [hm1,
            show s.xfers + 1 + m = s.xfers + (m + 1) from by omega]
      · have hm2 := ih2
        rw [show (i + 1) + d = i + (d + 1) from by omega] at hm2
        exact hm2
      · have hji : j ≠ i := by
          have := hj 0 (by omega)
          simpa using this
        have hfr := ih3 j (fun m hm => by
          have := hj (m + 1) (by omega)
          omega)
        rw [hfr]
        simp [hji]

/-! ### Claim C9 -/

/-- Claim C9, counterexample.  The claim says a failing
`retrieveRandomBytes(buf, n)` leaves positions `[k, n)` untouched when the
k-th single-byte retrieval is the first to fail.  On a primed connected
session whose first transfer succeeds (byte 7) and whose second transfer
fails, position 0 holds 7 but position 1 — the failing position, which the
claim says must keep its prior value 99 — holds 0, because `exhangeByte`
zeroes the receive cell before issuing the transfer. -/
theorem C9_counterexample :
    (retrieveRandomBytes busOkThenFail primedRandom 2 buf99).2.1 0 = 7 ∧
    (retrieveRandomBytes busOkThenFail primedRandom 2 buf99).2.1 1 = 0 ∧
    (retrieveRandomBytes busOkThenFail primedRandom 2 buf99).2.1 1 ≠
      buf99 1 := by
  refine ⟨?_, ?_, ?_⟩ <;> decide

/-- Claim C9, amended.  For every connected session and every n > 0, a
`retrieveRandomBytes(buf, n)` call whose k-th single-byte retrieval
(0-based) is the first to fail leaves positions `[0, k)` populated with
the bytes received so far, position `k` zeroed by the failed exchange,
and positions above `k` untouched.  `t` is the index (counted from the
session's current transfer count) of the first failing bus transfer; the
failing retrieval is `k = t - randOff s`, because the first retrieval of
a run issues one extra priming transfer on an unprimed session — so
`k = t` on a primed session, while on an unprimed one both the
priming-transfer-failure (`t = 0`) and read-transfer-failure (`t = 1`)
modes of the first retrieval map to `k = 0`. -/
theorem C9_partial_fill (bus : Bus) (s : SpiState) (buf : Nat → Nat)
    (n t k : Nat) (hc : s.deviceConnected = true)
    (hok : ∀ m, m < t → (bus s.clockHz (s.xfers + m)).ok = true)
    (hbad : (bus s.clockHz (s.xfers + t)).ok = false)
    (hk : k = t - randOff s) (hkn : k < n) :
    (∀ m, m < k →
      (retrieveRandomBytes bus s (n : Int) buf).2.1 m =
        (bus s.clockHz (s.xfers + randOff s + m)).rx % 256) ∧
    (retrieveRandomBytes bus s (n : Int) buf).2.1 k = 0 ∧
    (∀ j, k < j →
      (retrieveRandomBytes bus s (n : Int) buf).2.1 j = buf j) := by
  have hlen : ¬((n : Int) ≤ 0) := by omega
  have hret : retrieveRandomBytes bus s (n : Int) buf =
      (true, (retrieveRandomBytesLoop bus buf s 0 n).1,
       (retrieveRandomBytesLoop bus buf s 0 n).2) := by
    simp only [retrieveRandomBytes]
    rw [if_neg (by simp [hc]), if_neg hlen]
    rfl
  rw [hret]
  by_cases hp : s.lastSentCommand = randomByteCommand
  · have hoff : randOff s = 0 := by simp [randOff, hp]
    rw [hoff]
    simp only [Nat.add_zero]
    have hkt : k = t := by omega
    subst hkt
    obtain ⟨L1, L2, L3⟩ :=
      retrieveRandomBytesLoop_fail_at bus n s 0 buf k hc hp hkn hok hbad
    refine ⟨fun m hm => ?_, ?_, fun j hj => ?_⟩
    · have hv := L1 m hm
      rw [Nat.zero_add] at hv
      exact hv
    · have hv := L2
      rw [Nat.zero_add] at hv
      exact hv
    · exact L3 j (fun m hm => by omega)
  · have hne : randomByteCommand ≠ s.lastSentCommand :=
      fun hcon => hp hcon.symm
    have hoff : randOff s = 1 := by simp [randOff, hp]
    rw [hoff]
    obtain ⟨p, hpn⟩ : ∃ p, n = p + 1 := ⟨n - 1, by omega⟩
    subst hpn
    cases t with
    | zero =>
      have hk0 : k = 0 := by omega
      subst hk0
      have hb : (bus s.clockHz s.xfers).ok = false := by simpa using hbad
      have hfail0 : retrieveRandomByte bus s (buf 0) =
          (false, 0,
           { s with lastSentCommand := randomByteCommand,
                    xfers := s.xfers + 1,
                    lastError := "Could not exchange SPI bytes" }) := by
        simp only [retrieveRandomByte]
        rw [if_neg (by simp [hc])]
        exact executeCommand_unprimed_fail0 bus s randomByteCommand
          (buf 0) hc hne hb
      have hunroll : retrieveRandomBytesLoop bus buf s 0 (p + 1) =
          (fun j => if j = 0 then 0 else buf j,
           { s with lastSentCommand := randomByteCommand,
                    xfers := s.xfers + 1,
                    lastError := "Could not exchange SPI bytes" }) := by
        rw [retrieveRandomBytesLoop_succ]
        simp only [hfail0, if_true]
      rw [hunroll]
      refine ⟨fun m hm => absurd hm (by omega), ?_, fun j hj => ?_⟩
      · simp
      · have hj0 : j ≠ 0 := by omega
        simp [hj0]
    | succ t1 =>
      cases t1 with
      | zero =>
        have hk0 : k = 0 := by omega
        subst hk0
        have hok0 : (bus s.clockHz s.xfers).ok = true := by
          simpa using hok 0 (by omega)
        have hfail1 : retrieveRandomByte bus s (buf 0) =
            (false, 0,
             { s with lastSentCommand := randomByteCommand,
                      xfers := s.xfers + 1 + 1,
                      lastError := "Could not exchange SPI bytes" }) := by
          simp only [retrieveRandomByte]
          rw [if_neg (by simp [hc])]
          exact executeCommand_unprimed_fail1 bus s randomByteCommand
            (buf 0) hc hne hok0 (by simpa using hbad)
        have hunroll : retrieveRandomBytesLoop bus buf s 0 (p + 1) =
            (fun j => if j = 0 then 0 else buf j,
             { s with lastSentCommand := randomByteCommand,
                      xfers := s.xfers + 1 + 1,
                      lastError := "Could not exchange SPI bytes" }) := by
          rw [retrieveRandomBytesLoop_succ]
          simp only [hfail1, if_true]
        rw [hunroll]
        refine ⟨fun m hm => absurd hm (by omega), ?_, fun j hj => ?_⟩
        · simp
        · have hj0 : j ≠ 0 := by omega
          simp [hj0]
      | succ t2 =>
        have hk2 : k = t2 + 1 := by omega
        subst hk2
        have hok0 : (bus s.clockHz s.xfers).ok = true := by
          simpa using hok 0 (by omega)
        have hstep : retrieveRandomByte bus s (buf 0) =
            (true, (bus s.clockHz (s.xfers + 1)).rx % 256,
             { s with lastSentCommand := randomByteCommand,
                      xfers := s.xfers + 1 + 1 }) := by
          simp only [retrieveRandomByte]
          rw [if_neg (by simp [hc])]
          exact executeCommand_unprimed_ok bus s randomByteCommand
            (buf 0) hc hne hok0 (hok 1 (by omega))
        have hunroll : retrieveRandomBytesLoop bus buf s 0 (p + 1) =
            retrieveRandomBytesLoop bus
              (fun j => if j = 0 then
                  (bus s.clockHz (s.xfers + 1)).rx % 256
                else buf j)
              { s with lastSentCommand := randomByteCommand,
                       xfers := s.xfers + 1 + 1 }
              1 p := by
          rw [retrieveRandomBytesLoop_succ]
          simp only [hstep, Bool.true_eq_false, if_false]
        rw [hunroll]
        obtain ⟨L1, L2, L3⟩ :=
          retrieveRandomBytesLoop_fail_at bus p
            { s with lastSentCommand := randomByteCommand,
                     xfers := s.xfers + 1 + 1 }
            1
            (fun j => if j = 0 then
                (bus s.clockHz (s.xfers + 1)).rx % 256
              else buf j)
            t2 hc rfl (by omega)
            (fun m hm => by
              have hv := hok (m + 2) (by omega)
              rw [show s.xfers + (m + 2) = s.xfers + 1 + 1 + m
                from by omega] at hv
              exact hv)
            (by
              have hv := hbad
              rw [show s.xfers + (t2 + 1 + 1) = s.xfers + 1 + 1 + t2
                from by omega] at hv
              exact hv)
        have ih1 : ∀ m, m < t2 → (retrieveRandomBytesLoop bus
            (fun j => if j = 0 then
                (bus s.clockHz (s.xfers + 1)).rx % 256
              else buf j)
            { s with lastSentCommand := randomByteCommand,
                     xfers := s.xfers + 1 + 1 }
            1 p).1 (1 + m) =
            (bus s.clockHz (s.xfers + 1 + 1 + m)).rx % 256 := L1
        have ih2 : (retrieveRandomBytesLoop bus
            (fun j => if j = 0 then
                (bus s.clockHz (s.xfers + 1)).rx % 256
              else buf j)
            { s with lastSentCommand := randomByteCommand,
                     xfers := s.xfers + 1 + 1 }
            1 p).1 (1 + t2) = 0 := L2
        have ih3 : ∀ j, (∀ m, m ≤ t2 → j ≠ 1 + m) →
            (retrieveRandomBytesLoop bus
              (fun j => if j = 0 then
                  (bus s.clockHz (s.xfers + 1)).rx % 256
                else buf j)
              { s with lastSentCommand := randomByteCommand,
                       xfers := s.xfers + 1 + 1 }
              1 p).1 j =
            (if j = 0 then (bus s.clockHz (s.xfers + 1)).rx % 256
             else buf j) := L3
        refine ⟨fun m hm => ?_, ?_, fun j hj => ?_⟩
        · cases m with
          | zero =>
            have hfr := ih3 0 (fun m hm => by omega)
            simp only [if_pos rfl] at hfr
            rw [Nat.add_zero]
            exact hfr
          | succ m =>
            have hv := ih1 m (by omega)
            rw [show (1 : Nat) + m = m + 1 from by omega] at hv
            rw [show s.xfers + 1 + 1 + m = s.xfers + 1 + (m + 1)
              from by omega] at hv
            exact hv
        · have hv := ih2
          rw [show (1 : Nat) + t2 = t2 + 1 from by omega] at hv
          exact hv
        · have hj0 : j ≠ 0 := by omega
          have hfr := ih3 j (fun m hm => by omega)
          simp only [if_neg hj0] at hfr
          exact hfr

/-- Witness for C9_partial_fill on an UNPRIMED fresh session: four
requested bytes, the priming transfer and the first two read transfers
succeeding, the next transfer failing, so the third retrieval (k = 2) is
the first to fail. -/
theorem C9_partial_fill_witness :
    (∀ m, m < 2 →
      (retrieveRandomBytes busOk3ThenFail freshConnected ((4 : Nat) : Int)
          buf99).2.1 m =
        (busOk3ThenFail freshConnected.clockHz
          (freshConnected.xfers + randOff freshConnected + m)).rx % 256) ∧
    (retrieveRandomBytes busOk3ThenFail freshConnected ((4 : Nat) : Int)
        buf99).2.1 2 = 0 ∧
    (∀ j, 2 < j →
      (retrieveRandomBytes busOk3ThenFail freshConnected ((4 : Nat) : Int)
          buf99).2.1 j = buf99 j) :=
  C9_partial_fill busOk3ThenFail freshConnected buf99 4 3 2 rfl
    (by decide) (by decide) (by decide) (by decide)

/-! ### Claim C1 -/

/-- Claim C1, counterexample.  The claim states that `executeCommand C`
issues exactly two bus transfers "when C differs from the session's
last-sent command (or no transfer has yet occurred)".  On a freshly
connected session no transfer has yet occurred (`xfers = 0`), yet for the
command byte 0 — which equals the `'\0'` sentinel that `initialize` put in
`lastSentCommand` — `executeCommand` issues exactly ONE transfer, because
the code only compares against `lastSentCommand` and never checks whether
a transfer has occurred. -/
theorem C1_counterexample :
    freshConnected.xfers = 0 ∧
    freshConnected.deviceConnected = true ∧
    (executeCommand busAllOkInc freshConnected 0 0).1 = true ∧
    (executeCommand busAllOkInc freshConnected 0 0).2.2.xfers = 1 := by
  refine ⟨rfl, rfl, ?_, ?_⟩ <;> decide

/-- Claim C1, amended.  For every connected session and every command byte
`C`, when the needed transfers succeed, `executeCommand C` issues exactly
two bus transfers when `C` differs from the session's last-sent command
byte (which a fresh session initializes to the NUL byte) and exactly one
when `C` equals it; in both cases it records `C` as the last-sent command
and succeeds. -/
theorem C1_transfer_count (bus : Bus) (s : SpiState) (cmd rxOld : Nat)
    (hc : s.deviceConnected = true)
    (hok0 : (bus s.clockHz s.xfers).ok = true)
    (hok1 : (bus s.clockHz (s.xfers + 1)).ok = true) :
    (executeCommand bus s cmd rxOld).1 = true ∧
    (executeCommand bus s cmd rxOld).2.2.xfers =
      s.xfers + (if cmd = s.lastSentCommand then 1 else 2) ∧
    (executeCommand bus s cmd rxOld).2.2.lastSentCommand = cmd := by
  by_cases hp : cmd = s.lastSentCommand
  · rw [executeCommand_primed_ok bus s cmd rxOld hc hp.symm hok0]
    simp [hp]
  · rw [executeCommand_unprimed_ok bus s cmd rxOld hc hp hok0 hok1]
    simp [hp]

/-- Witness for C1_transfer_count at a concrete input: a fresh connected
session switching to the random-byte command. -/
theorem C1_transfer_count_witness :
    (executeCommand busAllOkInc freshConnected 108 0).1 = true ∧
    (executeCommand busAllOkInc freshConnected 108 0).2.2.xfers =
      freshConnected.xfers +
        (if 108 = freshConnected.lastSentCommand then 1 else 2) ∧
    (executeCommand busAllOkInc freshConnected 108 0).2.2.lastSentCommand =
      108 :=
  C1_transfer_count busAllOkInc freshConnected 108 0 rfl rfl rfl

/-! ### Claim C2 -/

/-- Claim C2 (code bug).  The claim — and the source's own documentation
(`@return true when random data successfully retrieved`) — say that when a
single-byte retrieval inside `retrieveRandomBytes` (likewise the raw and
test variants) fails, the loop stops and the failure is returned to the
caller.  The loop does stop (only one transfer is attempted below), but the
inner `bool status` of the loop shadows the outer `status` variable that
the function returns, so all three functions return `true` even though
every transfer failed. -/
theorem C2_failure_not_propagated :
    (retrieveRandomBytes busAllFail freshConnected 2 buf99).1 = true ∧
    (retrieveRawRandomBytes busAllFail freshConnected 2 buf99).1 = true ∧
    (retrieveTestBytes busAllFail freshConnected 2 buf99).1 = true ∧
    (retrieveRandomBytes busAllFail freshConnected 2 buf99).2.2.xfers = 1 := by
  refine ⟨?_, ?_, ?_, ?_⟩ <;> decide

/-! ### Claim C7 -/

/-- Claim C7, counterexample.  The claim includes the clock-frequency
setter among the operations that "fail immediately with an error" on a
disconnected session, but `setMaxClockFrequency` performs no connection
check at all: on the freshly initialized (disconnected) session it simply
installs the new frequency and leaves the error message untouched — it
cannot fail. -/
theorem C7_counterexample :
    initializeState.deviceConnected = false ∧
    (setMaxClockFrequency initializeState 777).clockHz = 777 ∧
    (setMaxClockFrequency initializeState 777).lastError =
      initializeState.lastError := by
  refine ⟨rfl, rfl, rfl⟩

/-- Claim C7, amended.  For every session in the disconnected state, every
protocol operation other than connect, the last-error getter and the
clock-frequency setter/getter (i.e. `executeCommand`, the single- and
multi-byte retrieval operations, the status/sleep/wake/reset-UART
commands, `validateDevice`, `validateCommunication` and
`autodetectMaxFrequency`) fails immediately, leaves the session state
unchanged and performs no bus transfer; the clock-frequency setter also
performs no bus transfer but unconditionally installs the new frequency
instead of failing. -/
theorem C7_disconnected_ops_fail (bus : Bus) (garbage buf : Nat → Nat)
    (s : SpiState) (cmd rxOld hz : Nat) (len : Int)
    (hd : s.deviceConnected = false) :
    exhangeByte bus s cmd rxOld = (false, rxOld, s) ∧
    executeCommand bus s cmd rxOld = (false, rxOld, s) ∧
    retrieveRandomByte bus s rxOld = (false, rxOld, s) ∧
    retrieveRawRandomByte bus s rxOld = (false, rxOld, s) ∧
    retrieveTestByte bus s rxOld = (false, rxOld, s) ∧
    retrieveDeviceStatusByte bus s rxOld = (false, rxOld, s) ∧
    shutDownNoiseSources bus s rxOld = (false, rxOld, s) ∧
    startUpNoiseSources bus s rxOld = (false, rxOld, s) ∧
    resetUART bus s rxOld = (false, rxOld, s) ∧
    retrieveRandomBytes bus s len buf = (false, buf, s) ∧
    retrieveRawRandomBytes bus s len buf = (false, buf, s) ∧
    retrieveTestBytes bus s len buf = (false, buf, s) ∧
    validateDevice bus s = (false, s) ∧
    validateCommunication bus garbage s = (false, s) ∧
    autodetectMaxFrequency bus garbage s = (false, s) ∧
    (setMaxClockFrequency s hz).xfers = s.xfers ∧
    (setMaxClockFrequency s hz).clockHz = hz := by
  refine ⟨?_, ?_, ?_, ?_, ?_, ?_, ?_, ?_, ?_, ?_, ?_, ?_, ?_, ?_, ?_,
    rfl, rfl⟩ <;>
    simp [exhangeByte, executeCommand, retrieveRandomByte,
      retrieveRawRandomByte, retrieveTestByte, retrieveDeviceStatusByte,
      shutDownNoiseSources, startUpNoiseSources, resetUART,
      retrieveRandomBytes, retrieveRawRandomBytes, retrieveTestBytes,
      validateDevice, validateCommunication, autodetectMaxFrequency, hd]

/-- Witness for C7_disconnected_ops_fail on the freshly initialized
session. -/
theorem C7_disconnected_ops_fail_witness :
    exhangeByte busAllOkInc initializeState 116 5 =
      (false, 5, initializeState) ∧
    executeCommand busAllOkInc initializeState 116 5 =
      (false, 5, initializeState) ∧
    retrieveRandomByte busAllOkInc initializeState 5 =
      (false, 5, initializeState) ∧
    retrieveRawRandomByte busAllOkInc initializeState 5 =
      (false, 5, initializeState) ∧
    retrieveTestByte busAllOkInc initializeState 5 =
      (false, 5, initializeState) ∧
    retrieveDeviceStatusByte busAllOkInc initializeState 5 =
      (false, 5, initializeState) ∧
    shutDownNoiseSources busAllOkInc initializeState 5 =
      (false, 5, initializeState) ∧
    startUpNoiseSources busAllOkInc initializeState 5 =
      (false, 5, initializeState) ∧
    resetUART busAllOkInc initializeState 5 =
      (false, 5, initializeState) ∧
    retrieveRandomBytes busAllOkInc initializeState 4 buf99 =
      (false, buf99, initializeState) ∧
    retrieveRawRandomBytes busAllOkInc initializeState 4 buf99 =
      (false, buf99, initializeState) ∧
    retrieveTestBytes busAllOkInc initializeState 4 buf99 =
      (false, buf99, initializeState) ∧
    validateDevice busAllOkInc initializeState =
      (false, initializeState) ∧
    validateCommunication busAllOkInc zeroGarbage initializeState =
      (false, initializeState) ∧
    autodetectMaxFrequency busAllOkInc zeroGarbage initializeState =
      (false, initializeState) ∧
    (setMaxClockFrequency initializeState 777).xfers =
      initializeState.xfers ∧
    (setMaxClockFrequency initializeState 777).clockHz = 777 :=
  C7_disconnected_ops_fail busAllOkInc zeroGarbage buf99 initializeState
    116 5 777 4 rfl

/-! ### Claim C8 -/

/-- Claim C8.  On a connected session, `retrieveRandomBytes` (and the raw
and test variants) called with `count <= 0` fails with the corresponding
invalid-argument error message, performs zero bus transfers and leaves the
output buffer untouched. -/
theorem C8_nonpositive_count_rejected (bus : Bus) (s : SpiState)
    (len : Int) (buf : Nat → Nat) (hc : s.deviceConnected = true)
    (hlen : len ≤ 0) :
    retrieveRandomBytes bus s len buf =
      (false, buf, setErrMsg s "Invalid ammount of random bytes requested") ∧
    retrieveRawRandomBytes bus s len buf =
      (false, buf,
       setErrMsg s "Invalid amount of raw random bytes requested") ∧
    retrieveTestBytes bus s len buf =
      (false, buf, setErrMsg s "Invalid amount of test bytes requested") ∧
    (retrieveRandomBytes bus s len buf).2.2.xfers = s.xfers ∧
    (retrieveRawRandomBytes bus s len buf).2.2.xfers = s.xfers ∧
    (retrieveTestBytes bus s len buf).2.2.xfers = s.xfers := by
  simp [retrieveRandomBytes, retrieveRawRandomBytes, retrieveTestBytes,
    setErrMsg, hc, hlen]

/-- Witness for C8_nonpositive_count_rejected with a negative count. -/
theorem C8_nonpositive_count_rejected_witness :
    retrieveRandomBytes busAllOkInc freshConnected (-3) buf99 =
      (false, buf99,
       setErrMsg freshConnected "Invalid ammount of random bytes requested") ∧
    retrieveRawRandomBytes busAllOkInc freshConnected (-3) buf99 =
      (false, buf99,
       setErrMsg freshConnected
         "Invalid amount of raw random bytes requested") ∧
    retrieveTestBytes busAllOkInc freshConnected (-3) buf99 =
      (false, buf99,
       setErrMsg freshConnected "Invalid amount of test bytes requested") ∧
    (retrieveRandomBytes busAllOkInc freshConnected (-3) buf99).2.2.xfers =
      freshConnected.xfers ∧
    (retrieveRawRandomBytes busAllOkInc freshConnected (-3)
        buf99).2.2.xfers = freshConnected.xfers ∧
    (retrieveTestBytes busAllOkInc freshConnected (-3) buf99).2.2.xfers =
      freshConnected.xfers :=
  C8_nonpositive_count_rejected busAllOkInc freshConnected (-3) buf99 rfl
    (by decide)

/-! ### Claim C3 -/

/-- Claim C3.  On a connected session whose transfers all succeed,
`validateCommunication` succeeds if and only if the 2048 test bytes it
samples form a single contiguous incrementing (mod 256) sequence starting
from the value of the first sampled byte; any break makes it fail with the
communication error message. -/
theorem C3_validateCommunication_iff (bus : Bus) (garbage : Nat → Nat)
    (s : SpiState) (hc : s.deviceConnected = true)
    (hok : ∀ n, (bus s.clockHz n).ok = true) :
    ((validateCommunication bus garbage s).1 = true ↔
      (∀ i, 1 ≤ i → i < 2048 →
        (bus s.clockHz (s.xfers + commOff s + i)).rx % 256 =
          ((bus s.clockHz (s.xfers + commOff s)).rx % 256 + i) % 256)) ∧
    ((validateCommunication bus garbage s).1 = false →
      (validateCommunication bus garbage s).2.lastError =
        "Could not validate SPI communication") :=
  validateCommunication_ok_iff bus garbage s hc hok

/-- Witness for C3_validateCommunication_iff on the healthy incrementing
bus. -/
theorem C3_validateCommunication_iff_witness :
    ((validateCommunication busAllOkInc zeroGarbage freshConnected).1 =
        true ↔
      (∀ i, 1 ≤ i → i < 2048 →
        (busAllOkInc freshConnected.clockHz
            (freshConnected.xfers + commOff freshConnected + i)).rx % 256 =
          ((busAllOkInc freshConnected.clockHz
              (freshConnected.xfers + commOff freshConnected)).rx % 256 +
            i) % 256)) ∧
    ((validateCommunication busAllOkInc zeroGarbage freshConnected).1 =
        false →
      (validateCommunication busAllOkInc zeroGarbage
          freshConnected).2.lastError =
        "Could not validate SPI communication") :=
  C3_validateCommunication_iff busAllOkInc zeroGarbage freshConnected rfl
    (fun _ => rfl)

/-! ### Claim C4 -/

/-- Claim C4.  On a connected session, `validateDevice` succeeds if and
only if all its transfers succeed and the 16 self-test response bytes it
collects (the byte at transfer `xfers + commOff + m` being the 1-based
sample `m + 1`; the first sample only seeds the expected sequence)
increment by exactly 1 (mod 256) between consecutive samples from sample 2
onward; any single deviating sample, or any transfer failure, makes it
fail. -/
theorem C4_validateDevice_iff (bus : Bus) (s : SpiState)
    (hc : s.deviceConnected = true) :
    ((validateDevice bus s).1 = true ↔
      ((∀ n, n < 16 + commOff s →
         (bus s.clockHz (s.xfers + n)).ok = true) ∧
       (∀ m, m < 15 →
         (bus s.clockHz (s.xfers + commOff s + (m + 1))).rx % 256 =
           ((bus s.clockHz (s.xfers + commOff s + m)).rx % 256 + 1) %
             256))) := by
  simp only [validateDevice]
  rw [if_neg (by simp [hc])]
  by_cases hp : s.lastSentCommand = testCommand
  · have hoff : commOff s = 0 := by simp [commOff, hp]
    rw [hoff]
    simp only [Nat.add_zero]
    by_cases h0 : (bus s.clockHz s.xfers).ok
    · have hexec := executeCommand_primed_ok bus s testCommand 0 hc hp h0
      simp only [hexec, Bool.true_eq_false, if_false]
      have hloop : (validateDeviceLoop bus
          { s with lastSentCommand := testCommand,
                   xfers := s.xfers + 1 }
          ((bus s.clockHz s.xfers).rx % 256) 15).1 = true ↔
          ((∀ m, m < 15 →
             (bus s.clockHz (s.xfers + 1 + m)).ok = true) ∧
           (∀ m, m < 15 →
             (bus s.clockHz (s.xfers + 1 + m)).rx % 256 =
               ((bus s.clockHz s.xfers).rx % 256 + m + 1) % 256)) :=
        validateDeviceLoop_iff bus 15
          { s with lastSentCommand := testCommand,
                   xfers := s.xfers + 1 }
          ((bus s.clockHz s.xfers).rx % 256) hc rfl
      rw [hloop]
      constructor
      · rintro ⟨HA, HB⟩
        constructor
        · intro n hn
          cases n with
          | zero => exact h0
          | succ n =>
            have hAn := HA n (by omega)
            rw [show s.xfers + 1 + n = s.xfers + (n + 1) from by omega]
              at hAn
            exact hAn
        · have hchain : ∀ m, m < 15 →
              (bus s.clockHz (s.xfers + (m + 1))).rx % 256 =
                ((bus s.clockHz (s.xfers + 0)).rx % 256 + m + 1) % 256 := by
            intro m hm
            have hb := HB m hm
            rw [show s.xfers + 1 + m = s.xfers + (m + 1) from by omega]
              at hb
            rw [show s.xfers + 0 = s.xfers from by omega]
            exact hb
          exact (chain_iff_consecutive
            (fun m => (bus s.clockHz (s.xfers + m)).rx % 256) 15).mp
            hchain
      · rintro ⟨HOK, HCONS⟩
        constructor
        · intro m hm
          have hn := HOK (m + 1) (by omega)
          rw [show s.xfers + (m + 1) = s.xfers + 1 + m from by omega]
            at hn
          exact hn
        · have hchain2 : ∀ m, m < 15 →
              (bus s.clockHz (s.xfers + (m + 1))).rx % 256 =
                ((bus s.clockHz (s.xfers + 0)).rx % 256 + m + 1) % 256 :=
            (chain_iff_consecutive
              (fun m => (bus s.clockHz (s.xfers + m)).rx % 256) 15).mpr
              HCONS
          intro m hm
          have hcm := hchain2 m hm
          rw [show s.xfers + 0 = s.xfers from by omega] at hcm
          rw [show s.xfers + 1 + m = s.xfers + (m + 1) from by omega]
          exact hcm
    · have hfst : (executeCommand bus s testCommand 0).1 = false := by
        rw [executeCommand_fst bus s testCommand 0 hc, if_pos hp.symm]
        simpa using h0
      rw [if_pos hfst]
      constructor
      · intro hfalse
        exact absurd hfalse (by simp)
      · rintro ⟨HOK, -⟩
        exfalso
        apply h0
        simpa using HOK 0 (by omega)
  · have hoff : commOff s = 1 := by simp [commOff, hp]
    have hp1 : testCommand ≠ s.lastSentCommand := fun hcon => hp hcon.symm
    rw [hoff]
    by_cases h0 : (bus s.clockHz s.xfers).ok
    · by_cases h1 : (bus s.clockHz (s.xfers + 1)).ok
      · have hexec := executeCommand_unprimed_ok bus s testCommand 0 hc
          hp1 h0 h1
        simp only [hexec, Bool.true_eq_false, if_false]
        have hloop : (validateDeviceLoop bus
            { s with lastSentCommand := testCommand,
                     xfers := s.xfers + 1 + 1 }
            ((bus s.clockHz (s.xfers + 1)).rx % 256) 15).1 = true ↔
            ((∀ m, m < 15 →
               (bus s.clockHz (s.xfers + 1 + 1 + m)).ok = true) ∧
             (∀ m, m < 15 →
               (bus s.clockHz (s.xfers + 1 + 1 + m)).rx % 256 =
                 ((bus s.clockHz (s.xfers + 1)).rx % 256 + m + 1) %
                   256)) :=
          validateDeviceLoop_iff bus 15
            { s with lastSentCommand := testCommand,
                     xfers := s.xfers + 1 + 1 }
            ((bus s.clockHz (s.xfers + 1)).rx % 256) hc rfl
        rw [hloop]
        constructor
        · rintro ⟨HA, HB⟩
          constructor
          · intro n hn
            match n with
            | 0 => exact h0
            | 1 => exact h1
            | (m + 2) =>
              have hAn := HA m (by omega)
              rw [show s.xfers + 1 + 1 + m = s.xfers + (m + 2)
                from by omega] at hAn
              exact hAn
          · have hchain : ∀ m, m < 15 →
                (bus s.clockHz (s.xfers + 1 + (m + 1))).rx % 256 =
                  ((bus s.clockHz (s.xfers + 1 + 0)).rx % 256 + m + 1) %
                    256 := by
              intro m hm
              have hb := HB m hm
              rw [show s.xfers + 1 + 1 + m = s.xfers + 1 + (m + 1)
                from by omega] at hb
              rw [show s.xfers + 1 + 0 = s.xfers + 1 from by omega]
              exact hb
            exact (chain_iff_consecutive
              (fun m => (bus s.clockHz (s.xfers + 1 + m)).rx % 256)
              15).mp hchain
        · rintro ⟨HOK, HCONS⟩
          constructor
          · intro m hm
            have hn := HOK (m + 2) (by omega)
            rw [show s.xfers + (m + 2) = s.xfers + 1 + 1 + m
              from by omega] at hn
            exact hn
          · have hchain2 : ∀ m, m < 15 →
                (bus s.clockHz (s.xfers + 1 + (m + 1))).rx % 256 =
                  ((bus s.clockHz (s.xfers + 1 + 0)).rx % 256 + m + 1) %
                    256 :=
              (chain_iff_consecutive
                (fun m => (bus s.clockHz (s.xfers + 1 + m)).rx % 256)
                15).mpr HCONS
            intro m hm
            have hcm := hchain2 m hm
            rw [show s.xfers + 1 + 0 = s.xfers + 1 from by omega] at hcm
            rw [show s.xfers + 1 + 1 + m = s.xfers + 1 + (m + 1)
              from by omega]
            exact hcm
      · have hfst : (executeCommand bus s testCommand 0).1 = false := by
          rw [executeCommand_fst bus s testCommand 0 hc, if_neg hp1]
          simp only [Bool.not_eq_true] at h1
          simp [h1]
        rw [if_pos hfst]
        constructor
        · intro hfalse
          exact absurd hfalse (by simp)
        · rintro ⟨HOK, -⟩
          exfalso
          apply h1
          exact HOK 1 (by omega)
    · have hfst : (executeCommand bus s testCommand 0).1 = false := by
        rw [executeCommand_fst bus s testCommand 0 hc, if_neg hp1]
        simp only [Bool.not_eq_true] at h0
        simp [h0]
      rw [if_pos hfst]
      constructor
      · intro hfalse
        exact absurd hfalse (by simp)
      · rintro ⟨HOK, -⟩
        exfalso
        apply h0
        simpa using HOK 0 (by omega)

/-- Witness for C4_validateDevice_iff on a fresh connected session. -/
theorem C4_validateDevice_iff_witness :
    ((validateDevice busAllOkInc freshConnected).1 = true ↔
      ((∀ n, n < 16 + commOff freshConnected →
         (busAllOkInc freshConnected.clockHz
           (freshConnected.xfers + n)).ok = true) ∧
       (∀ m, m < 15 →
         (busAllOkInc freshConnected.clockHz
             (freshConnected.xfers + commOff freshConnected +
               (m + 1))).rx % 256 =
           ((busAllOkInc freshConnected.clockHz
               (freshConnected.xfers + commOff freshConnected +
                 m)).rx % 256 + 1) % 256))) :=
  C4_validateDevice_iff busAllOkInc freshConnected rfl

/-! ### Claim C5 -/

/-- Invariant of the calibration sweep: entering iteration `j` (frequency
`j * minClockHz`) of a sweep in which validation passes exactly at
frequencies up to `k * minClockHz`, the loop ends successfully with the
clock left at `k * minClockHz` whenever `j ≤ k`, and ends with the entry
state's clock restored when `j = k + 1`. -/
theorem autodetectMaxFrequencyLoop_pass_upto (bus : Bus)
    (garbage : Nat → Nat) (s : SpiState) (k : Nat)
    (hmin : 0 < s.minClockHz)
    (hstep : (k + 1) * s.minClockHz < s.maxClockHz)
    (hvalid : ∀ s' : SpiState, s'.deviceConnected = true →
      ((validateCommunication bus garbage s').1 = true ↔
        s'.clockHz ≤ k * s.minClockHz)) :
    ∀ (fuel j : Nat) (s' : SpiState) (succ : Bool),
      1 ≤ j → j ≤ k + 1 → s'.deviceConnected = true →
      s'.minClockHz = s.minClockHz → s'.maxClockHz = s.maxClockHz →
      k + 2 - j ≤ fuel →
      (autodetectMaxFrequencyLoop bus garbage (j * s.minClockHz) s' succ
          fuel).1 = (if j ≤ k then true else succ) ∧
      (autodetectMaxFrequencyLoop bus garbage (j * s.minClockHz) s' succ
          fuel).2.clockHz =
        (if j ≤ k then k * s.minClockHz else s'.clockHz) := by
  intro fuel
  induction fuel with
  | zero =>
    intro j s' succ h1 h2 _ _ _ hf
    omega
  | succ fuel ih =>
    intro j s' succ h1 h2 hc' hmn' hmx' hf
    have hcond : j * s.minClockHz < s'.maxClockHz := by
      rw [hmx']
      calc j * s.minClockHz ≤ (k + 1) * s.minClockHz :=
            Nat.mul_le_mul_right _ h2
        _ < s.maxClockHz := hstep
    simp only [autodetectMaxFrequencyLoop]
    rw [if_pos hcond]
    obtain ⟨pc, pck, pmn, pmx⟩ :=
      validateCommunication_preservesConfig bus garbage
        (setMaxClockFrequency s' (j * s.minClockHz))
    by_cases hj : j ≤ k
    · have hpass : (validateCommunication bus garbage
          (setMaxClockFrequency s' (j * s.minClockHz))).1 = true := by
        rw [hvalid (setMaxClockFrequency s' (j * s.minClockHz)) hc']
        exact Nat.mul_le_mul_right _ hj
      rw [if_pos hpass]
      have hfreq : j * s.minClockHz +
          (validateCommunication bus garbage
            (setMaxClockFrequency s' (j * s.minClockHz))).2.minClockHz =
          (j + 1) * s.minClockHz := by
        rw [pmn]
        show j * s.minClockHz + s'.minClockHz = (j + 1) * s.minClockHz
        rw [hmn', Nat.succ_mul]
      rw [hfreq]
      obtain ⟨ih1, ih2⟩ := ih (j + 1)
        (validateCommunication bus garbage
          (setMaxClockFrequency s' (j * s.minClockHz))).2 true
        (by omega) (by omega) (pc.trans hc') (pmn.trans hmn')
        (pmx.trans hmx') (by omega)
      constructor
      · rw [ih1, if_pos hj]
        by_cases hj1 : j + 1 ≤ k
        · rw [if_pos hj1]
        · rw [if_neg hj1]
      · rw [ih2, if_pos hj]
        by_cases hj1 : j + 1 ≤ k
        · rw [if_pos hj1]
        · rw [if_neg hj1, pck]
          show j * s.minClockHz = k * s.minClockHz
          have hjk : j = k := by omega
          rw [hjk]
    · have hfail : (validateCommunication bus garbage
          (setMaxClockFrequency s' (j * s.minClockHz))).1 = false := by
        cases hval : (validateCommunication bus garbage
            (setMaxClockFrequency s' (j * s.minClockHz))).1
        · rfl
        · exfalso
          have hle := (hvalid (setMaxClockFrequency s'
              (j * s.minClockHz)) hc').mp hval
          exact hj (Nat.le_of_mul_le_mul_right hle hmin)
      rw [if_neg (by simp [hfail])]
      refine ⟨?_, ?_⟩
      · rw [if_neg hj]
      · rw [if_neg hj]
        rfl

/-- Claim C5.  For a connected session on a bus where
`validateCommunication` passes exactly at frequencies up to
`k * minClockHz` (so it passes at frequency steps 1..k and fails at step
k+1, k >= 1), `autodetectMaxFrequency` returns success and leaves the
session's clock frequency at `k * minClockHz`, the frequency of the last
passing step. -/
theorem C5_autodetect_pass (bus : Bus) (garbage : Nat → Nat)
    (s : SpiState) (k : Nat) (hc : s.deviceConnected = true)
    (hmin : 0 < s.minClockHz) (hk : 1 ≤ k)
    (hstep : (k + 1) * s.minClockHz < s.maxClockHz)
    (hvalid : ∀ s' : SpiState, s'.deviceConnected = true →
      ((validateCommunication bus garbage s').1 = true ↔
        s'.clockHz ≤ k * s.minClockHz)) :
    (autodetectMaxFrequency bus garbage s).1 = true ∧
    (autodetectMaxFrequency bus garbage s).2.clockHz =
      k * s.minClockHz := by
  have hkdiv : k ≤ s.maxClockHz / s.minClockHz := by
    rw [Nat.le_div_iff_mul_le hmin]
    calc k * s.minClockHz ≤ (k + 1) * s.minClockHz :=
          Nat.mul_le_mul_right _ (Nat.le_succ k)
      _ ≤ s.maxClockHz := le_of_lt hstep
  obtain ⟨h1, h2⟩ := autodetectMaxFrequencyLoop_pass_upto bus garbage s k
    hmin hstep hvalid (s.maxClockHz / s.minClockHz + 1) 1 s false
    (le_refl 1) (by omega) hc rfl rfl (by omega)
  rw [one_mul] at h1 h2
  rw [if_pos hk] at h1 h2
  simp only [autodetectMaxFrequency]
  rw [if_neg (by simp [hc])]
  exact ⟨h1, h2⟩

/-- On the speed-gated bus, communication validation passes exactly at
clock frequencies up to 1250000 Hz, for every connected session state. -/
theorem busSpeedGate_valid_iff (s' : SpiState)
    (hc : s'.deviceConnected = true) :
    ((validateCommunication busSpeedGate zeroGarbage s').1 = true ↔
      s'.clockHz ≤ 5 * 250000) := by
  have hok : ∀ n, (busSpeedGate s'.clockHz n).ok = true := by
    intro n
    simp only [busSpeedGate]
    split <;> rfl
  obtain ⟨hiff, -⟩ :=
    validateCommunication_ok_iff busSpeedGate zeroGarbage s' hc hok
  rw [hiff]
  by_cases hcl : s'.clockHz ≤ 1250000
  · apply iff_of_true
    · intro i h1 h2
      simp only [busSpeedGate, if_pos hcl]
      omega
    · omega
  · apply iff_of_false
    · intro hcon
      have h1 := hcon 1 (le_refl 1) (by omega)
      simp only [busSpeedGate, if_neg hcl] at h1
      omega
    · omega

/-- Witness for C5_autodetect_pass: a fresh session on the speed-gated
bus passes steps 1..5 and fails at step 6, ending at the step-5
frequency. -/
theorem C5_autodetect_pass_witness :
    (autodetectMaxFrequency busSpeedGate zeroGarbage freshConnected).1 =
      true ∧
    (autodetectMaxFrequency busSpeedGate zeroGarbage
        freshConnected).2.clockHz = 5 * freshConnected.minClockHz :=
  C5_autodetect_pass busSpeedGate zeroGarbage freshConnected 5 rfl
    (by decide) (by decide) (by decide)
    (fun s' hc => busSpeedGate_valid_iff s' hc)

/-! ### Claim C6 -/

/-- Claim C6, counterexample.  The claim says that when
`validateCommunication` fails at the very first (minimum) frequency step,
the session's clock frequency is left at the last attempted (failing)
value — here 250000 Hz — for every clock frequency the session held before
the call.  On a session holding 1000000 Hz, with a bus on which every
transfer fails (so the first step's validation fails), the loop instead
executes `setMaxClockFrequency(prevClockHz)` before breaking: the call
returns failure but the frequency is restored to the pre-call 1000000 Hz,
not left at 250000 Hz. -/
theorem C6_counterexample :
    s1MHz.clockHz = 1000000 ∧
    s1MHz.minClockHz = 250000 ∧
    (autodetectMaxFrequency busAllFail zeroGarbage s1MHz).1 = false ∧
    (autodetectMaxFrequency busAllFail zeroGarbage s1MHz).2.clockHz =
      1000000 ∧
    (autodetectMaxFrequency busAllFail zeroGarbage s1MHz).2.clockHz ≠
      250000 := by
  refine ⟨rfl, rfl, ?_, ?_, ?_⟩ <;> decide

/-- Claim C6, amended.  If `validateCommunication` fails at the very first
(minimum) frequency step, `autodetectMaxFrequency` returns failure and the
session's clock frequency is restored to the value it held before the
call. -/
theorem C6_first_step_failure (bus : Bus) (garbage : Nat → Nat)
    (s : SpiState) (hc : s.deviceConnected = true)
    (hrange : s.minClockHz < s.maxClockHz)
    (hfail : (validateCommunication bus garbage
        (setMaxClockFrequency s s.minClockHz)).1 = false) :
    (autodetectMaxFrequency bus garbage s).1 = false ∧
    (autodetectMaxFrequency bus garbage s).2.clockHz = s.clockHz := by
  simp only [autodetectMaxFrequency, hc, Bool.true_eq_false, if_false,
    autodetectMaxFrequencyLoop, hrange, if_true, getMaxClockFrequency,
    hfail]
  simp [setMaxClockFrequency]

/-- Witness for C6_first_step_failure: the 1 MHz session on the
all-failures bus. -/
theorem C6_first_step_failure_witness :
    (autodetectMaxFrequency busAllFail zeroGarbage s1MHz).1 = false ∧
    (autodetectMaxFrequency busAllFail zeroGarbage s1MHz).2.clockHz =
      s1MHz.clockHz :=
  C6_first_step_failure busAllFail zeroGarbage s1MHz rfl (by decide)
    (by decide)

/-! ### Claim C10 -/

/-- Claim C10.  `exhangeByte` records the command byte as last-sent before
issuing the transfer, so after any `executeCommand C` on a connected
session — even one whose transfer fails — `C` is recorded as the last-sent
command, and an immediately following `executeCommand C` with the same `C`
issues exactly one transfer (it does not re-prime). -/
theorem C10_lastSent_recorded (bus : Bus) (s : SpiState) (cmd rxOld : Nat)
    (hc : s.deviceConnected = true) :
    (executeCommand bus s cmd rxOld).2.2.lastSentCommand = cmd ∧
    (executeCommand bus (executeCommand bus s cmd rxOld).2.2 cmd
        (executeCommand bus s cmd rxOld).2.1).2.2.xfers =
      (executeCommand bus s cmd rxOld).2.2.xfers + 1 := by
  obtain ⟨hc1, hlast, -, -, -, -⟩ :=
    executeCommand_connected_state bus s cmd rxOld hc
  refine ⟨hlast, ?_⟩
  rw [executeCommand_primed bus _ cmd _ hc1 hlast,
    exhangeByte_state bus _ cmd _ hc1]

/-- Witness for C10_lastSent_recorded on a bus where every transfer fails:
the command is still recorded and the follow-up call issues one
transfer. -/
theorem C10_lastSent_recorded_witness :
    (executeCommand busAllFail freshConnected 108 0).2.2.lastSentCommand =
      108 ∧
    (executeCommand busAllFail
        (executeCommand busAllFail freshConnected 108 0).2.2 108
        (executeCommand busAllFail freshConnected 108 0).2.1).2.2.xfers =
      (executeCommand busAllFail freshConnected 108 0).2.2.xfers + 1 :=
  C10_lastSent_recorded busAllFail freshConnected 108 0 rfl

end MicroRng
